import Mathlib

/-!
Verification of the google-photos-takeout pipelines (analyzer.py,
organize_takeout.py, cleanup_takeout.py) against their specification.
The Python sources are shallowly embedded: pure computations become Lean
functions, exceptions become `Except`, the external exiftool process and the
filesystem become explicit inputs, and the thread-pool dispatch becomes a map
over the file list (per-file outcomes, no shared mutable state, matching the
spec's concurrency model).
-/

set_option maxRecDepth 4000

namespace Takeout

/-- Calendar timestamp as produced by Python's `datetime.strptime` with the
format `%Y:%m:%d %H:%M:%S`. -/
structure PDateTime where
  year : Nat
  month : Nat
  day : Nat
  hour : Nat
  minute : Nat
  second : Nat
deriving DecidableEq, Repr

/-- Numeric value of a decimal digit character. -/
def charVal (c : Char) : Nat := c.toNat - 48

/-- Decimal value of a digit run. -/
def digitsVal (ds : List Char) : Nat := ds.foldl (fun n c => n * 10 + charVal c) 0

/-- Longest prefix of decimal digits of a character list, with the rest. -/
def takeDigits : List Char → List Char × List Char
  | [] => ([], [])
  | c :: rest =>
    if c.isDigit then
      let (ds, r) := takeDigits rest
      (c :: ds, r)
    else ([], c :: rest)

/-- Drop a leading run of whitespace characters. -/
def skipWhitespace : List Char → List Char
  | [] => []
  | a :: r => if a.isWhitespace then skipWhitespace r else a :: r

/-- Match the exactly-four-digit year of `strptime`'s `%Y`
(regex `\d\d\d\d`), returning its value and the remainder. -/
def parseYear4 (cs : List Char) : Option (Nat × List Char) :=
  match cs with
  | a :: b :: c :: d :: r =>
    if a.isDigit ∧ b.isDigit ∧ c.isDigit ∧ d.isDigit then
      some (digitsVal [a, b, c, d], r)
    else none
  | _ => none

/-- Match one expected literal character of the format. -/
def parseChar (c : Char) (cs : List Char) : Option (List Char) :=
  match cs with
  | a :: r => if a = c then some r else none
  | [] => none

/-- Match a numeric field of `strptime` whose regex alternation amounts to a
run of one or two digits with value between `lo` and `hi` (the case for
`%m` = 1..12, `%H` = 0..23, `%M` = 0..59, `%S` = 0..61): because the field is
always followed by a non-digit (a literal `:`, whitespace, or the end of the
string), backtracking makes the match succeed exactly when the maximal digit
run has length 1 or 2 and its value lies in the range. -/
def parseNum2 (lo hi : Nat) (cs : List Char) : Option (Nat × List Char) :=
  let (ds, r) := takeDigits cs
  if 1 ≤ ds.length ∧ ds.length ≤ 2 ∧ lo ≤ digitsVal ds ∧ digitsVal ds ≤ hi then
    some (digitsVal ds, r)
  else none

/-- Match `strptime`'s `%d` (regex `3[01]|[12]\d|0[1-9]|[1-9]| [1-9]`): one
or two digits with value 1..31, or — for ANSI C `%c` compatibility — one
literal space followed by a single nonzero digit. -/
def parseDay (cs : List Char) : Option (Nat × List Char) :=
  match cs with
  | ' ' :: c :: r =>
    if c.isDigit ∧ 1 ≤ charVal c then some (charVal c, r) else none
  | _ => parseNum2 1 31 cs

/-- Match the whitespace of the format, which `_strptime` compiles to `\s+`:
at least one whitespace character (modelled by `Char.isWhitespace`, the ASCII
core of Python's `\s`), consumed greedily — correct here because the
following field starts with a digit. -/
def parseSpaces1 (cs : List Char) : Option (List Char) :=
  match cs with
  | a :: r => if a.isWhitespace then some (skipWhitespace r) else none
  | [] => none

/-- Leap-year test of the proleptic Gregorian calendar used by Python's
`datetime`. -/
def isLeapYear (y : Nat) : Bool := y % 4 = 0 ∧ (y % 100 ≠ 0 ∨ y % 400 = 0)

/-- Number of days in a month, matching the validation `datetime.datetime`
performs on the tuple produced by `strptime`. -/
def daysInMonth (y m : Nat) : Nat :=
  if m = 2 then (if isLeapYear y then 29 else 28)
  else if m = 4 ∨ m = 6 ∨ m = 9 ∨ m = 11 then 30
  else 31

/-- Shallow embedding of `datetime.strptime(s, '%Y:%m:%d %H:%M:%S')` as the
source calls it. `_strptime` compiles the format to an anchored regex —
exactly four digits for `%Y`, the one-or-two-digit alternations for
`%m`/`%H`/`%M`/`%S` (the latter admitting 60 and 61), `%d` additionally
allowing a space-padded single digit, the format's space matching a run of
whitespace — and requires the whole string to be consumed. The
`datetime` constructor then validates the tuple: year at least 1 (four
digits already bound it by 9999), day no larger than the month's length, and
second at most 59, rejecting the 60-61 the regex admitted. `none` models the
`ValueError` raised at either stage. -/
def parseExifDate (s : String) : Option PDateTime := do
  let (y, r1) ← parseYear4 s.data
  let r2 ← parseChar ':' r1
  let (mo, r3) ← parseNum2 1 12 r2
  let r4 ← parseChar ':' r3
  let (da, r5) ← parseDay r4
  let r6 ← parseSpaces1 r5
  let (h, r7) ← parseNum2 0 23 r6
  let r8 ← parseChar ':' r7
  let (mi, r9) ← parseNum2 0 59 r8
  let r10 ← parseChar ':' r9
  let (se, r11) ← parseNum2 0 61 r10
  if r11 = [] ∧ 1 ≤ y ∧ da ≤ daysInMonth y mo ∧ se ≤ 59 then
    some ⟨y, mo, da, h, mi, se⟩
  else none

/-- Tag-to-value mapping returned by the metadata tool for one file; absent
tags are simply missing from the list (spec section 6). -/
abbrev Metadata := List (String × String)

/-- Dictionary lookup `tag in metadata[0]` / `metadata[0][tag]`. -/
def lookupTag (md : Metadata) (tag : String) : Option String :=
  match md with
  | [] => none
  | (k, v) :: rest => if k = tag then some v else lookupTag rest tag

/-- Outcome of one round-trip to the external metadata tool: `.error` models
the tool call itself raising (tool error, corrupt file, unsupported format),
`.ok` carries the tag map of the queried file. -/
abbrev ExifQuery := Except String Metadata

/-- Tag priority list from organize_takeout.py line 15. -/
def datetime_tags : List String :=
  ["EXIF:DateTimeOriginal", "EXIF:CreateDate", "EXIF:ModifyDate",
   "EXIF:DateTimeDigitized", "QuickTime:CreateDate", "ICC_Profile:ProfileDateTime"]

/-- Value of the first tag of `tags` present in `md`, embedding the loop
`for tag in datetime_tags: if tag in metadata[0]: ...`. -/
def firstTagValue (md : Metadata) (tags : List String) : Option String :=
  match tags with
  | [] => none
  | t :: rest =>
    match lookupTag md t with
    | some v => some v
    | none => firstTagValue md rest

/-- Shallow embedding of `OrganizeTakeout.get_photo_date` (organize_takeout.py
lines 25-36). The body has no try/except: a failing metadata query propagates,
and a present tag whose value `strptime` rejects raises `ValueError`; both are
modelled by `.error`. Only the no-tag-present case returns `None`. -/
def get_photo_date_organize (q : ExifQuery) : Except String (Option PDateTime) :=
  match q with
  | .error e => .error e
  | .ok md =>
    match firstTagValue md datetime_tags with
    | some v =>
      match parseExifDate v with
      | some d => .ok (some d)
      | none => .error ("ValueError: time data " ++ v ++ " does not match format")
    | none => .ok none

/-- Try-block body of `AnalyzeTakeout.get_photo_date` (analyzer.py lines
44-48): query only `EXIF:DateTimeOriginal` and parse its value; `.error`
models an exception inside the try block. -/
def get_photo_date_analyzer_body (q : ExifQuery) : Except String (Option PDateTime) :=
  match q with
  | .error e => .error e
  | .ok md =>
    match lookupTag md "EXIF:DateTimeOriginal" with
    | some v =>
      match parseExifDate v with
      | some d => .ok (some d)
      | none => .error ("ValueError: time data " ++ v ++ " does not match format")
    | none => .ok none

/-- Shallow embedding of `AnalyzeTakeout.get_photo_date` (analyzer.py lines
42-51): the whole body is wrapped in `try/except Exception`, so every failure
is logged and degraded to `None`. -/
def get_photo_date_analyzer (q : ExifQuery) : Option PDateTime :=
  match get_photo_date_analyzer_body q with
  | .ok r => r
  | .error _ => none

/-- Index of the last occurrence of `c` in `cs`, if any. -/
def lastIdxOf (c : Char) (cs : List Char) : Option Nat :=
  match cs with
  | [] => none
  | a :: rest =>
    match lastIdxOf c rest with
    | some i => some (i + 1)
    | none => if a = c then some 0 else none

/-- Extension part of `os.path.splitext` on a bare filename (no directory
separators, as the names yielded by `os.walk` have none): the suffix starting
at the last dot, unless no character before that dot differs from a dot — so
dotfiles such as `.jpg` or `..jpg` have extension `""`. -/
def splitext_ext (name : String) : String :=
  match lastIdxOf '.' name.data with
  | none => ""
  | some i =>
    if (name.data.take i).any (fun c => c ≠ '.') then ⟨name.data.drop i⟩ else ""

/-- Python `str.lower`, restricted to the ASCII mapping of `Char.toLower`. -/
def lowerStr (s : String) : String := ⟨s.data.map Char.toLower⟩

inductive Classification where
  | Known (ext : String)
  | Unknown
deriving DecidableEq, Repr

/-- Extension classification of the analyze walker (analyzer.py lines 58-59):
`os.path.splitext(file)[1].lower()`, then exact string membership in the
configured extension set. -/
def classify (exts : List String) (name : String) : Classification :=
  let e := lowerStr (splitext_ext name)
  if e ∈ exts then .Known e else .Unknown

/-- Test that `e` is a (contiguous, final) suffix of `s`, the single-candidate
semantics of Python's `str.endswith`. -/
def endsWithOne (s e : String) : Bool :=
  e.data == s.data.drop (s.data.length - e.data.length)

/-- File selection of the organize walker (organize_takeout.py line 68):
`file.lower().endswith(photo_extensions + video_extensions)` — a suffix test
of the lowered filename against every configured extension. -/
def organize_selects (exts : List String) (name : String) : Bool :=
  exts.any (fun e => endsWithOne (lowerStr name) e)

/-- Basename of a path, `os.path.basename`: everything after the last `/`. -/
def basename (p : String) : String :=
  match lastIdxOf '/' p.data with
  | none => p
  | some i => ⟨p.data.drop (i + 1)⟩

/-- Zero-padded two-digit rendering, `f"{n:02d}"`. -/
def pad2 (n : Nat) : String := if n < 10 then "0" ++ toString n else toString n

/-- Target directory computation of `OrganizeTakeout.process_file`
(organize_takeout.py lines 48-54): `{destination}/{year}/{month:02d}/{day:02d}`
when a date was resolved, `{destination}/undated` otherwise. -/
def targetFolder (destination : String) (d : Option PDateTime) : String :=
  match d with
  | some dt =>
    destination ++ "/" ++ toString dt.year ++ "/" ++ pad2 dt.month ++ "/" ++ pad2 dt.day
  | none => destination ++ "/undated"

/-- One file handed to the organize pipeline: its path, the reply the metadata
tool gives for it, and the outcome the filesystem gives to the
makedirs-and-move step (`.error` models an OSError raised by either call). -/
structure FileSpec where
  path : String
  exif : ExifQuery
  moveResult : Except String Unit

inductive Outcome where
  | Moved (target : String)
  | Failed (msg : String)
deriving DecidableEq, Repr

def Outcome.isMoved : Outcome → Bool
  | .Moved _ => true
  | .Failed _ => false

/-- Try-block body of `OrganizeTakeout.process_file` (organize_takeout.py
lines 46-59): resolve the date (a call that may itself raise), compute the
target folder, create it and move the file there. -/
def process_file_body (destination : String) (f : FileSpec) : Except String String := do
  let d ← get_photo_date_organize f.exif
  let t := targetFolder destination d
  match f.moveResult with
  | .ok _ => .ok (t ++ "/" ++ basename f.path)
  | .error e => .error e

/-- Shallow embedding of `OrganizeTakeout.process_file`: every exception in
the body is caught by `except Exception` and logged, so each call produces an
outcome and nothing propagates to the dispatcher. -/
def process_file (destination : String) (f : FileSpec) : Outcome :=
  match process_file_body destination f with
  | .ok t => .Moved t
  | .error e => .Failed e

/-- Dispatch loop of `OrganizeTakeout.organize_photos_by_date`
(organize_takeout.py lines 71-77): one `process_file` task per file, all
outcomes collected via `as_completed` with per-future exception handling and
no early exit. The workers share no mutable state, so the collected outcomes
form the pointwise image of the file list; the embedding lists them in
submission order. -/
def organize_dispatch (destination : String) (files : List FileSpec) : List Outcome :=
  files.map (process_file destination)

/-- One file handed to the analyze pipeline: directory, bare filename, and the
replies of `os.path.getsize`, the metadata tool, and `os.path.getctime`. -/
structure AFile where
  dir : String
  name : String
  sizeResult : Except String Nat
  exif : ExifQuery
  ctimeResult : Except String PDateTime

/-- Full path `os.path.join(root, file)` of an analyzed file. -/
def AFile.path (f : AFile) : String := f.dir ++ "/" ++ f.name

/-- Mutable metric state of `AnalyzeTakeout` (analyzer.py lines 22-25). -/
structure AnalyzerState where
  file_counts : List (String × Nat)
  file_sizes : List Nat
  creation_dates : List PDateTime
  unknown_files : List String
deriving DecidableEq, Repr

def initState : AnalyzerState := ⟨[], [], [], []⟩

/-- Increment for `defaultdict(int)`: bump the count of `k`, inserting it with
count 1 when absent. -/
def bumpCount (m : List (String × Nat)) (k : String) : List (String × Nat) :=
  match m with
  | [] => [(k, 1)]
  | (k0, n) :: rest => if k0 = k then (k0, n + 1) :: rest else (k0, n) :: bumpCount rest k

/-- Try-block body of `AnalyzeTakeout.process_file` (analyzer.py lines 69-74):
stat the size, then take the metadata date or, only when the resolver yields
nothing, the filesystem creation time (`get_photo_date(file_path) or
datetime.fromtimestamp(os.path.getctime(file_path))`); the resolver never
raises but both stat calls may. -/
def analyzer_process_file_body (f : AFile) : Except String (Nat × PDateTime) := do
  let sz ← f.sizeResult
  match get_photo_date_analyzer f.exif with
  | some d => .ok (sz, d)
  | none => do
    let c ← f.ctimeResult
    .ok (sz, c)

/-- Shallow embedding of `AnalyzeTakeout.process_file`: on success all three
metrics are updated; on any exception the error is logged and the path is
appended to `unknown_files` instead (analyzer.py lines 75-77). -/
def analyzer_process_file (st : AnalyzerState) (f : AFile) (ext : String) : AnalyzerState :=
  match analyzer_process_file_body f with
  | .ok (sz, d) =>
    { st with
      file_counts := bumpCount st.file_counts ext,
      file_sizes := st.file_sizes ++ [sz],
      creation_dates := st.creation_dates ++ [d] }
  | .error _ => { st with unknown_files := st.unknown_files ++ [f.path] }

/-- Loop body of `AnalyzeTakeout.analyze_files` for one walked file
(analyzer.py lines 58-62): classify it by its lowered splitext extension and
either process it or record it as unknown. -/
def analyzeStep (exts : List String) (st : AnalyzerState) (f : AFile) : AnalyzerState :=
  let e := lowerStr (splitext_ext f.name)
  if e ∈ exts then analyzer_process_file st f e
  else { st with unknown_files := st.unknown_files ++ [f.path] }

/-- Shallow embedding of `AnalyzeTakeout.analyze_files` (analyzer.py lines
56-62) applied to the walked file list. -/
def analyze_files (exts : List String) (st : AnalyzerState) (files : List AFile) : AnalyzerState :=
  files.foldl (analyzeStep exts) st

/-- Size histogram ranges of `export_file_size_distribution` (analyzer.py
lines 106-114); `none` as an upper bound models `float('inf')`. -/
def size_ranges : List (Nat × Option Nat × String) :=
  [(0, some 10240, "0-10KB"),
   (10240, some 102400, "10KB-100KB"),
   (102400, some 1048576, "100KB-1MB"),
   (1048576, some 10485760, "1MB-10MB"),
   (10485760, some 104857600, "10MB-100MB"),
   (104857600, some 1073741824, "100MB-1GB"),
   (1073741824, none, "1GB+")]

/-- Membership test `lower <= size < upper` of one histogram range
(analyzer.py line 119). -/
def inRange (n : Nat) (r : Nat × Option Nat × String) : Bool :=
  decide (r.1 ≤ n) &&
    (match r.2.1 with
     | some hi => decide (n < hi)
     | none => true)

/-- Bucket label assigned to one size by the loop of analyzer.py lines
117-121: the label of the first matching range (the loop breaks on the first
hit). -/
def bucketOf (n : Nat) : Option String :=
  match size_ranges.find? (inRange n) with
  | some r => some r.2.2
  | none => none

/-- Decimal rounding of `num / den` to an integer with ties to even, the rule
Python's `format` applies to the exact value of a binary float. -/
def round2HalfEven (num den : Nat) : Nat :=
  let f := num / den
  let rem := num % den
  if 2 * rem < den then f
  else if den < 2 * rem then f + 1
  else if f % 2 = 0 then f else f + 1

/-- Rendering of Python's `f"{x:.2f}"` for the nonnegative value `num / den`:
round to two decimals (ties to even) and print exactly two digits after the
point. -/
def fmt2 (num den : Nat) : String :=
  let c := round2HalfEven (num * 100) den
  toString (c / 100) ++ "." ++ (if c % 100 < 10 then "0" else "") ++ toString (c % 100)

/-- Loop of `AnalyzeTakeout.format_size` (analyzer.py lines 95-99) as a
recursion over the pending unit names, the running float `size` carried as
the exact fraction `num / den` (each `size /= 1024` multiplies `den` by 1024;
a binary-float division by 1024 only shifts the exponent, so for byte counts
below 2^53 the fraction is exactly the Python float). After the five listed
units are exhausted the value is rendered as PB (line 99). -/
def format_size_aux : List String → Nat → Nat → String
  | [], num, den => fmt2 num den ++ " PB"
  | u :: us, num, den =>
    if num < 1024 * den then fmt2 num den ++ " " ++ u
    else format_size_aux us num (1024 * den)

/-- Shallow embedding of `AnalyzeTakeout.format_size` on a byte count. -/
def format_size (size : Nat) : String :=
  format_size_aux ["B", "KB", "MB", "GB", "TB"] size 1

/-- One entry yielded by `os.walk(root, topdown=False)`: directory path, its
subdirectory names, its file names. With `topdown=False` every directory is
scanned before its children are yielded (and possibly deleted), so the
entries always describe the original tree. -/
abbrev WalkEntry := String × List String × List String

/-- Emptiness test `not files and not dirs` of cleanup_takeout.py line 51. -/
def entryIsEmpty (e : WalkEntry) : Bool := e.2.1.isEmpty && e.2.2.isEmpty

/-- Loop body of `delete_empty_folders` for one walk entry (cleanup_takeout.py
lines 51-58), threading the removed directories and the log lines. -/
def cleanupStep (dry_run : Bool) (acc : List String × List String) (e : WalkEntry) :
    List String × List String :=
  if entryIsEmpty e then
    if ¬ dry_run then
      (acc.1 ++ [e.1], acc.2 ++ ["Deleted empty folder: " ++ e.1])
    else
      (acc.1, acc.2 ++ ["Would delete empty folder: " ++ e.1])
  else (acc.1, acc.2 ++ ["Would keep folder: " ++ e.1])

/-- Shallow embedding of `CleanupTakeout.delete_empty_folders`
(cleanup_takeout.py lines 48-58) over the bottom-up walk of the tree: returns
the directories removed by `os.rmdir` and the log lines, in emission order. -/
def delete_empty_folders (dry_run : Bool) (walk : List WalkEntry) :
    List String × List String :=
  walk.foldl (cleanupStep dry_run) ([], [])

/-- Shallow embedding of `CleanupTakeout.process_folders` (cleanup_takeout.py
lines 60-74), restricted to its directory-deletion effect and logs (metadata
extraction and the two report writes touch no directory). The guard
`if not self.dry_run:` on line 66 means `delete_empty_folders` is not called
at all in a dry run, so neither deletions nor intent logs are produced. -/
def process_folders (dry_run : Bool) (walk : List WalkEntry) :
    List String × List String :=
  if ¬ dry_run then delete_empty_folders dry_run walk else ([], [])

/-- Shallow embedding of analyzer.py `main` (lines 161-174). There is no
validation of the source root: `os.walk` on a missing or non-directory path
simply yields nothing (the default `onerror=None` swallows the scandir
error), every export succeeds on the empty metric set, and the process ends
with exit code 0. The filesystem is summarised by the walk result: `none`
for a nonexistent root (the walk yields no files), `some files` otherwise.
Report-write errors are out of scope here and taken to succeed. -/
def analyzer_main (exts : List String) (root : Option (List AFile)) :
    Nat × AnalyzerState :=
  let files := match root with | none => [] | some fs => fs
  (0, analyze_files exts initState files)

/-- Shallow embedding of organize_takeout.py `main` (lines 80-95):
`os.path.isdir(source_folder)` is checked after argument parsing; when it
fails the process logs and exits with code 1 before any file is dispatched.
Returns the exit code and the outcomes of the dispatched files. -/
def organize_main (sourceIsDir : Bool) (destination : String) (files : List FileSpec) :
    Nat × List Outcome :=
  if ¬ sourceIsDir then (1, [])
  else (0, organize_dispatch destination files)

/-- Shallow embedding of cleanup_takeout.py `main` (lines 76-90): the root is
validated with `os.path.isdir`; on failure the process exits with code 1
before `process_folders` runs. -/
def cleanup_main (rootIsDir : Bool) (dry_run : Bool) (walk : List WalkEntry) :
    Nat × (List String × List String) :=
  if ¬ rootIsDir then (1, ([], []))
  else (0, process_folders dry_run walk)

example : bucketOf 10239 = some "0-10KB" := by decide
example : bucketOf 10240 = some "10KB-100KB" := by decide
example : bucketOf 1073741824 = some "1GB+" := by decide
example : format_size 500 = "500.00 B" := by decide
example : format_size 2048 = "2.00 KB" := by decide
example : format_size 1048576 = "1.00 MB" := by decide
example :
    delete_empty_folders true [("r/empty", [], []), ("r", ["empty"], [])] =
      ([], ["Would delete empty folder: r/empty", "Would keep folder: r"]) := by decide
example :
    process_folders true [("r/empty", [], []), ("r", ["empty"], [])] = ([], []) := by decide
example :
    process_folders false [("r/empty", [], []), ("r", ["empty"], [])] =
      (["r/empty"], ["Deleted empty folder: r/empty", "Would keep folder: r"]) := by decide
example : (analyzer_main [".jpg"] none).1 = 0 := by decide

example : splitext_ext "photo.JPG" = ".JPG" := by decide
example : splitext_ext ".jpg" = "" := by decide
example : splitext_ext "a..jpg" = ".jpg" := by decide
example : splitext_ext "noext" = "" := by decide
example : classify [".jpg"] "A.JPG" = .Known ".jpg" := by decide
example : classify [".jpg"] ".jpg" = .Unknown := by decide
example : organize_selects [".jpg"] ".JPG" = true := by decide
example : organize_selects [".jpg"] "b.png" = false := by decide
example : targetFolder "d" (some ⟨2020, 5, 1, 0, 0, 0⟩) = "d/2020/05/01" := by decide
example : targetFolder "d" none = "d/undated" := by decide
example :
    process_file "d" ⟨"s/x.jpg", .ok [("EXIF:DateTimeOriginal", "bad")], .ok ()⟩ =
      .Failed "ValueError: time data bad does not match format" := rfl
example :
    process_file "d" ⟨"s/x.jpg", .ok [], .ok ()⟩ = .Moved "d/undated/x.jpg" := rfl

example : parseExifDate "2020:05:01 12:30:45" = some ⟨2020, 5, 1, 12, 30, 45⟩ := by decide
example : parseExifDate "garbage" = none := by decide
example : parseExifDate "2020:02:30 00:00:00" = none := by decide
example : parseExifDate "2020:13:01 00:00:00" = none := by decide
example : parseExifDate "2020:01:01 00:00:60" = none := by decide
example : parseExifDate "2020:01:01 00:00:61" = none := by decide
example : parseExifDate "2020:01:01 00:00:59" = some ⟨2020, 1, 1, 0, 0, 59⟩ := by decide
example : parseExifDate "202:01:01 00:00:00" = none := by decide
example : parseExifDate "0000:01:01 00:00:00" = none := by decide
example : parseExifDate "2020:01:01  00:00:00" = some ⟨2020, 1, 1, 0, 0, 0⟩ := by decide
example : parseExifDate "2020:01:01\t00:00:00" = some ⟨2020, 1, 1, 0, 0, 0⟩ := by decide
example : parseExifDate "2020:05: 1 00:00:00" = some ⟨2020, 5, 1, 0, 0, 0⟩ := by decide
example : parseExifDate "2020:5:1 3:4:5" = some ⟨2020, 5, 1, 3, 4, 5⟩ := by decide
example : parseExifDate "2020:05:01 00:00:00 " = none := by decide
example : parseExifDate "2020:001:01 00:00:00" = none := by decide
example : parseExifDate "2020:05:  1 00:00:00" = none := by decide
example : parseExifDate "2020:05:00 00:00:00" = none := by decide
example : parseExifDate "2020:05:01 24:00:00" = none := by decide
example : parseExifDate "2020:02:29 00:00:00" = some ⟨2020, 2, 29, 0, 0, 0⟩ := by decide
example : parseExifDate "2021:02:29 00:00:00" = none := by decide
example :
    get_photo_date_organize (.ok [("EXIF:CreateDate", "2021:01:02 03:04:05")]) =
      .ok (some ⟨2021, 1, 2, 3, 4, 5⟩) := rfl
example : (get_photo_date_organize (.ok [("EXIF:DateTimeOriginal", "oops")])).isOk = false := rfl
example : get_photo_date_analyzer (.ok [("EXIF:DateTimeOriginal", "oops")]) = none := by decide

/-! Helper lemmas shared by the claim theorems. -/

theorem firstTagValue_append (md : Metadata) (pre rest : List String)
    (hpre : ∀ s ∈ pre, lookupTag md s = none) :
    firstTagValue md (pre ++ rest) = firstTagValue md rest := by
  induction pre with
  | nil => rfl
  | cons t ts ih =>
    have ht := hpre t (by simp)
    simp only [List.cons_append, firstTagValue, ht]
    exact ih fun s hs => hpre s (by simp [hs])

theorem cleanup_foldl_deleted (walk : List WalkEntry) (acc : List String × List String) :
    (walk.foldl (cleanupStep false) acc).1 =
      acc.1 ++ (walk.filter entryIsEmpty).map (fun e => e.1) := by
  induction walk generalizing acc with
  | nil => simp
  | cons e rest ih =>
    rw [List.foldl_cons, ih]
    by_cases h : entryIsEmpty e
    · simp [cleanupStep, h]
    · simp [cleanupStep, h]

theorem isMoved_process_file (destination : String) (f : FileSpec) :
    (process_file destination f).isMoved = (process_file_body destination f).isOk := by
  unfold process_file
  cases process_file_body destination f <;> rfl

theorem analyzeStep_unknown_mono (exts : List String) (st : AnalyzerState) (f : AFile) :
    ∃ t, (analyzeStep exts st f).unknown_files = st.unknown_files ++ t := by
  unfold analyzeStep
  by_cases h : lowerStr (splitext_ext f.name) ∈ exts
  · simp only [h, if_pos]
    unfold analyzer_process_file
    cases hb : analyzer_process_file_body f with
    | ok r =>
      obtain ⟨sz, d⟩ := r
      exact ⟨[], by simp⟩
    | error e => exact ⟨[f.path], rfl⟩
  · exact ⟨[f.path], by simp [h]⟩

theorem analyze_files_unknown_mono (exts : List String) (files : List AFile)
    (st : AnalyzerState) :
    ∃ t, (analyze_files exts st files).unknown_files = st.unknown_files ++ t := by
  induction files generalizing st with
  | nil => exact ⟨[], by simp [analyze_files]⟩
  | cons f fs ih =>
    obtain ⟨t1, h1⟩ := analyzeStep_unknown_mono exts st f
    obtain ⟨t2, h2⟩ := ih (analyzeStep exts st f)
    refine ⟨t1 ++ t2, ?_⟩
    have hunfold : analyze_files exts st (f :: fs) =
        analyze_files exts (analyzeStep exts st f) fs := rfl
    rw [hunfold, h2, h1, List.append_assoc]

theorem lastIdxOf_lt_length (c : Char) (cs : List Char) (i : Nat)
    (h : lastIdxOf c cs = some i) : i < cs.length := by
  induction cs generalizing i with
  | nil => cases h
  | cons a rest ih =>
    simp only [lastIdxOf] at h
    cases hr : lastIdxOf c rest with
    | some j =>
      rw [hr] at h
      cases h
      have hj := ih j hr
      simp only [List.length_cons]
      omega
    | none =>
      rw [hr] at h
      by_cases hac : a = c
      · rw [if_pos hac] at h
        cases h
        simp
      · rw [if_neg hac] at h
        cases h

theorem endsWithOne_empty (s : String) : endsWithOne s "" = true := by
  unfold endsWithOne
  show ([] == s.data.drop (s.data.length - 0)) = true
  rw [Nat.sub_zero, List.drop_length]
  rfl

theorem endsWithOne_lower_drop (cs : List Char) (i : Nat) (hi : i ≤ cs.length) :
    endsWithOne ⟨cs.map Char.toLower⟩ ⟨(cs.drop i).map Char.toLower⟩ = true := by
  unfold endsWithOne
  show ((cs.drop i).map Char.toLower ==
    (cs.map Char.toLower).drop
      ((cs.map Char.toLower).length - ((cs.drop i).map Char.toLower).length)) = true
  simp only [List.length_map, List.length_drop]
  rw [Nat.sub_sub_self hi, ← List.map_drop]
  exact beq_self_eq_true _

theorem splitext_ext_cases (name : String) :
    splitext_ext name = "" ∨
      ∃ i, i < name.data.length ∧ splitext_ext name = ⟨name.data.drop i⟩ := by
  unfold splitext_ext
  cases hl : lastIdxOf '.' name.data with
  | none => exact Or.inl rfl
  | some i =>
    by_cases h : ((List.take i name.data).any fun c => decide (c ≠ '.')) = true
    · exact Or.inr ⟨i, lastIdxOf_lt_length '.' name.data i hl, if_pos h⟩
    · exact Or.inl (if_neg h)

theorem splitext_ext_endsWith (name : String) :
    endsWithOne (lowerStr name) (lowerStr (splitext_ext name)) = true := by
  rcases splitext_ext_cases name with h | ⟨i, hi, h⟩
  · rw [h]
    exact endsWithOne_empty _
  · rw [h]
    exact endsWithOne_lower_drop name.data i (Nat.le_of_lt hi)

/-! Claim theorems. -/

/-- Claim C4: the spec says all three pipelines exit non-zero on a source
root that is not an existing directory. This fails for the analyze pipeline:
its `main` never validates the root, `os.walk` on a nonexistent directory
yields nothing, and the process finishes with exit code 0. -/
theorem C4_counterexample : (analyzer_main [".jpg"] none).1 = 0 := rfl

/-- C4 as amended: the organize and cleanup pipelines exit with code 1 before
any file processing when the source root is not a directory; the analyze
pipeline performs no such validation — on a nonexistent root it processes the
empty walk and exits 0. -/
theorem C4_amended :
    (∀ (destination : String) (files : List FileSpec),
        organize_main false destination files = (1, [])) ∧
    (∀ (dry_run : Bool) (walk : List WalkEntry),
        cleanup_main false dry_run walk = (1, ([], []))) ∧
    (∀ exts : List String, analyzer_main exts none = (0, initState)) :=
  ⟨fun _ _ => rfl, fun _ _ => rfl, fun _ => rfl⟩

/-- Claim C5: the code contradicts the spec's dry-run contract. Evaluated on
a walk with one empty directory: a dry run removes nothing but also emits no
intent log, because `process_folders` only calls `delete_empty_folders` when
`dry_run` is false (cleanup_takeout.py line 66), leaving the `Would delete`
branch inside `delete_empty_folders` unreachable — yet that branch shows the
intended behavior. Without dry-run, exactly the directories that are empty
of both files and subdirectories are deleted. -/
theorem C5_dry_run_bug :
    process_folders true [("r/empty", [], []), ("r", ["empty"], [])] = ([], []) ∧
    delete_empty_folders true [("r/empty", [], []), ("r", ["empty"], [])] =
      ([], ["Would delete empty folder: r/empty", "Would keep folder: r"]) ∧
    (∀ walk : List WalkEntry, process_folders true walk = ([], [])) ∧
    (∀ walk : List WalkEntry,
        (process_folders false walk).1 = (walk.filter entryIsEmpty).map (fun e => e.1)) := by
  refine ⟨rfl, by decide, fun _ => rfl, fun walk => ?_⟩
  have h := cleanup_foldl_deleted walk ([], [])
  simpa [process_folders, delete_empty_folders] using h

/-- Claim C6: for a metadata response containing at least one priority tag,
`OrganizeTakeout.get_photo_date` returns the parsed value of the earliest tag
of the priority list that is present, regardless of which lower-priority tags
the response also contains. -/
theorem C6_priority_order (md : Metadata) (pre suf : List String) (t v : String)
    (d : PDateTime) (hsplit : datetime_tags = pre ++ t :: suf)
    (hpre : ∀ s ∈ pre, lookupTag md s = none)
    (ht : lookupTag md t = some v) (hd : parseExifDate v = some d) :
    get_photo_date_organize (.ok md) = .ok (some d) := by
  have h1 : firstTagValue md datetime_tags = some v := by
    rw [hsplit, firstTagValue_append md pre _ hpre]
    simp [firstTagValue, ht]
  simp [get_photo_date_organize, h1, hd]

/-- Concrete instance of C6: the priority-1 tag wins even though the response
lists a lower-priority tag (with a different value) first. -/
theorem C6_priority_order_witness :
    get_photo_date_organize
        (.ok [("QuickTime:CreateDate", "1999:01:01 00:00:00"),
              ("EXIF:DateTimeOriginal", "2020:05:01 12:30:45")]) =
      .ok (some ⟨2020, 5, 1, 12, 30, 45⟩) :=
  C6_priority_order _ []
    ["EXIF:CreateDate", "EXIF:ModifyDate", "EXIF:DateTimeDigitized",
     "QuickTime:CreateDate", "ICC_Profile:ProfileDateTime"]
    "EXIF:DateTimeOriginal" "2020:05:01 12:30:45" ⟨2020, 5, 1, 12, 30, 45⟩
    rfl (by simp) rfl (by decide)

/-- Claim C7: every non-negative size satisfies exactly one of the seven
half-open histogram ranges, the bucket assignment is total, and each boundary
value lands in the upper adjacent bucket. -/
theorem C7_buckets :
    (∀ n : Nat, size_ranges.countP (inRange n) = 1) ∧
    (∀ n : Nat, (bucketOf n).isSome = true) ∧
    bucketOf 10240 = some "10KB-100KB" ∧
    bucketOf 102400 = some "100KB-1MB" ∧
    bucketOf 1048576 = some "1MB-10MB" ∧
    bucketOf 10485760 = some "10MB-100MB" ∧
    bucketOf 104857600 = some "100MB-1GB" ∧
    bucketOf 1073741824 = some "1GB+" := by
  have hcount : ∀ n : Nat, size_ranges.countP (inRange n) = 1 := by
    intro n
    simp only [size_ranges, List.countP_cons, List.countP_nil, inRange,
      Bool.and_true, Bool.and_eq_true, decide_eq_true_eq]
    split_ifs <;> omega
  refine ⟨hcount, ?_, by decide, by decide, by decide, by decide, by decide, by decide⟩
  intro n
  have h0 : 0 < size_ranges.countP (inRange n) := by rw [hcount n]; omega
  obtain ⟨r, hr, hpr⟩ := List.countP_pos_iff.mp h0
  have hfind : (size_ranges.find? (inRange n)).isSome = true :=
    List.find?_isSome.mpr ⟨r, hr, hpr⟩
  unfold bucketOf
  cases hf : size_ranges.find? (inRange n) with
  | some r' => rfl
  | none => rw [hf] at hfind; simp at hfind

/-- Claim C2: the spec says both walkers classify by case-insensitive exact
string membership of the file's extension, with no substring, suffix or
wildcard matching. This fails for the organize walker: the dotfile `.jpg`
has splitext extension `""`, which is in neither configured set — the
analyze walker classifies it Unknown — yet the organize walker selects it,
because `".jpg".endswith((".jpg",))` is a suffix test of the whole
filename. -/
theorem C2_counterexample :
    organize_selects [".jpg"] ".jpg" = true ∧ classify [".jpg"] ".jpg" = .Unknown :=
  ⟨by decide, by decide⟩

/-- C2 as amended: the analyze walker classifies by case-insensitive exact
membership of the file's splitext extension in the configured sets, while
the organize walker selects files by a case-insensitive `str.endswith`
suffix test of the whole filename against the configured extensions. Every
filename whose lowered splitext extension is configured is selected by the
organize walker too, but the converse fails (see the dotfile
counterexample), so the organize selection is not exact extension
membership. -/
theorem C2_amended :
    (∀ (exts : List String) (name : String),
        classify exts name = .Unknown ↔ lowerStr (splitext_ext name) ∉ exts) ∧
    (∀ (exts : List String) (name : String),
        classify exts name ≠ .Unknown →
          classify exts name = .Known (lowerStr (splitext_ext name))) ∧
    (∀ (exts : List String) (name : String),
        lowerStr (splitext_ext name) ∈ exts → organize_selects exts name = true) := by
  refine ⟨?_, ?_, ?_⟩
  · intro exts name
    by_cases h : lowerStr (splitext_ext name) ∈ exts
    · simp [classify, h]
    · simp [classify, h]
  · intro exts name hne
    by_cases h : lowerStr (splitext_ext name) ∈ exts
    · simp [classify, h]
    · exact absurd (by simp [classify, h]) hne
  · intro exts name hin
    rw [organize_selects, List.any_eq_true]
    exact ⟨lowerStr (splitext_ext name), hin, splitext_ext_endsWith name⟩

/-- Concrete instance of C2 as amended: a configured extension in different
letter case is selected by the organize walker. -/
theorem C2_amended_witness : organize_selects [".jpg"] "A.JPG" = true :=
  C2_amended.2.2 [".jpg"] "A.JPG" (by decide)

/-- Claim C3: the organize dispatcher yields one outcome per input file; when
exactly one file's processing raises, that exception is caught and recorded
as the single `Failed` outcome while the other N-1 files are still moved —
the batch is never aborted early. -/
theorem C3_no_early_abort (destination : String) (files : List FileSpec)
    (h : files.countP (fun f => !(process_file_body destination f).isOk) = 1) :
    (organize_dispatch destination files).length = files.length ∧
    (organize_dispatch destination files).countP (fun o => !o.isMoved) = 1 ∧
    (organize_dispatch destination files).countP (fun o => o.isMoved) =
      files.length - 1 := by
  have hlen : (organize_dispatch destination files).length = files.length := by
    simp [organize_dispatch]
  have hfail : (organize_dispatch destination files).countP (fun o => !o.isMoved) = 1 := by
    rw [organize_dispatch, List.countP_map]
    have : ((fun o : Outcome => !o.isMoved) ∘ process_file destination) =
        fun f => !(process_file_body destination f).isOk := by
      funext f
      simp [Function.comp, isMoved_process_file]
    rw [this, h]
  refine ⟨hlen, hfail, ?_⟩
  have hsplit := List.length_eq_countP_add_countP (fun o => o.isMoved)
    (organize_dispatch destination files)
  have hnot : (organize_dispatch destination files).countP
      (fun o => decide ¬(o.isMoved = true)) =
      (organize_dispatch destination files).countP (fun o => !o.isMoved) := by
    congr 1
    funext o
    cases o.isMoved <;> rfl
  rw [hnot, hfail] at hsplit
  omega

/-- Concrete instance of C3: three files, the middle one failing because its
metadata query raises; both others are moved. -/
theorem C3_no_early_abort_witness :
    (organize_dispatch "d"
        [⟨"s/a.jpg", .ok [("EXIF:DateTimeOriginal", "2020:05:01 12:30:45")], .ok ()⟩,
         ⟨"s/b.jpg", .error "exiftool crashed", .ok ()⟩,
         ⟨"s/c.jpg", .ok [], .ok ()⟩]).length = 3 ∧
    (organize_dispatch "d"
        [⟨"s/a.jpg", .ok [("EXIF:DateTimeOriginal", "2020:05:01 12:30:45")], .ok ()⟩,
         ⟨"s/b.jpg", .error "exiftool crashed", .ok ()⟩,
         ⟨"s/c.jpg", .ok [], .ok ()⟩]).countP (fun o => !o.isMoved) = 1 ∧
    (organize_dispatch "d"
        [⟨"s/a.jpg", .ok [("EXIF:DateTimeOriginal", "2020:05:01 12:30:45")], .ok ()⟩,
         ⟨"s/b.jpg", .error "exiftool crashed", .ok ()⟩,
         ⟨"s/c.jpg", .ok [], .ok ()⟩]).countP (fun o => o.isMoved) = 2 :=
  C3_no_early_abort "d"
    [⟨"s/a.jpg", .ok [("EXIF:DateTimeOriginal", "2020:05:01 12:30:45")], .ok ()⟩,
     ⟨"s/b.jpg", .error "exiftool crashed", .ok ()⟩,
     ⟨"s/c.jpg", .ok [], .ok ()⟩] (by decide)

/-- Claim C8: the analyze pipeline records the metadata-resolved date when
one is resolved and otherwise the filesystem creation time; the organize
pipeline applies no filesystem-time fallback — a file whose metadata yields
no date is moved under the `undated` directory. -/
theorem C8_date_fallback :
    (∀ (st : AnalyzerState) (f : AFile) (ext : String) (sz : Nat) (d : PDateTime),
        f.sizeResult = .ok sz → get_photo_date_analyzer f.exif = some d →
        (analyzer_process_file st f ext).creation_dates = st.creation_dates ++ [d]) ∧
    (∀ (st : AnalyzerState) (f : AFile) (ext : String) (sz : Nat) (c : PDateTime),
        f.sizeResult = .ok sz → get_photo_date_analyzer f.exif = none →
        f.ctimeResult = .ok c →
        (analyzer_process_file st f ext).creation_dates = st.creation_dates ++ [c]) ∧
    (∀ (destination : String) (f : FileSpec),
        get_photo_date_organize f.exif = .ok none → f.moveResult = .ok () →
        process_file destination f =
          .Moved (destination ++ "/undated" ++ "/" ++ basename f.path)) := by
  refine ⟨?_, ?_, ?_⟩
  · intro st f ext sz d hs hd
    have hb : analyzer_process_file_body f = .ok (sz, d) := by
      simp only [analyzer_process_file_body, hs, hd]
      exact rfl
    simp [analyzer_process_file, hb]
  · intro st f ext sz c hs hd hc
    have hb : analyzer_process_file_body f = .ok (sz, c) := by
      simp only [analyzer_process_file_body, hs, hd, hc]
      exact rfl
    simp [analyzer_process_file, hb]
  · intro destination f hd hm
    have hb : process_file_body destination f =
        .ok (destination ++ "/undated" ++ "/" ++ basename f.path) := by
      simp only [process_file_body, hd, hm]
      exact rfl
    simp [process_file, hb]

/-- Concrete instance of C8's organize half: a file with an empty metadata
response is moved under `undated` with no filesystem-time fallback. -/
theorem C8_date_fallback_witness :
    process_file "d" ⟨"s/x.raw", .ok [], .ok ()⟩ = .Moved "d/undated/x.raw" :=
  (C8_date_fallback.2.2 "d" ⟨"s/x.raw", .ok [], .ok ()⟩ rfl rfl).trans (by decide)

/-- Claim C9: `format_size` repeatedly divides by 1024 through the units B,
KB, MB, GB, TB, PB, rendering two decimals at the first unit where the value
is below 1024 (at PB if it never is), and maps 500, 2048 and 1048576 to the
three reference strings. The running float after k divisions is the exact
fraction `n / 1024 ^ k`, rendered by `fmt2 n (1024 ^ k)`. -/
theorem C9_format_size :
    format_size 500 = "500.00 B" ∧
    format_size 2048 = "2.00 KB" ∧
    format_size 1048576 = "1.00 MB" ∧
    (∀ n : Nat, n < 1024 → format_size n = fmt2 n 1 ++ " B") ∧
    (∀ n : Nat, 1024 ≤ n → n < 1024 ^ 2 → format_size n = fmt2 n 1024 ++ " KB") ∧
    (∀ n : Nat, 1024 ^ 2 ≤ n → n < 1024 ^ 3 → format_size n = fmt2 n (1024 ^ 2) ++ " MB") ∧
    (∀ n : Nat, 1024 ^ 3 ≤ n → n < 1024 ^ 4 → format_size n = fmt2 n (1024 ^ 3) ++ " GB") ∧
    (∀ n : Nat, 1024 ^ 4 ≤ n → n < 1024 ^ 5 → format_size n = fmt2 n (1024 ^ 4) ++ " TB") ∧
    (∀ n : Nat, 1024 ^ 5 ≤ n → format_size n = fmt2 n (1024 ^ 5) ++ " PB") := by
  refine ⟨by decide, by decide, by decide, ?_, ?_, ?_, ?_, ?_, ?_⟩
  · intro n h1
    simp only [format_size, format_size_aux]
    rw [if_pos (by omega), String.append_assoc]
    exact rfl
  · intro n h1 h2
    norm_num at h2
    simp only [format_size, format_size_aux]
    rw [if_neg (by omega), if_pos (by omega), String.append_assoc]
    exact rfl
  · intro n h1 h2
    norm_num at h1 h2
    simp only [format_size, format_size_aux]
    rw [if_neg (by omega), if_neg (by omega), if_pos (by omega), String.append_assoc]
    exact rfl
  · intro n h1 h2
    norm_num at h1 h2
    simp only [format_size, format_size_aux]
    rw [if_neg (by omega), if_neg (by omega), if_neg (by omega), if_pos (by omega),
      String.append_assoc]
    exact rfl
  · intro n h1 h2
    norm_num at h1 h2
    simp only [format_size, format_size_aux]
    rw [if_neg (by omega), if_neg (by omega), if_neg (by omega), if_neg (by omega),
      if_pos (by omega), String.append_assoc]
    exact rfl
  · intro n h1
    norm_num at h1
    simp only [format_size, format_size_aux]
    rw [if_neg (by omega), if_neg (by omega), if_neg (by omega), if_neg (by omega),
      if_neg (by omega)]
    exact rfl

/-- Concrete instance of C9: 500 bytes select unit B. -/
theorem C9_format_size_witness : format_size 500 = fmt2 500 1 ++ " B" :=
  C9_format_size.2.2.2.1 500 (by omega)

/-- Claim C10: in the analyze pipeline, a file whose processing raises leaves
every metric untouched (extension counts, size list, date list) and only gets
its path appended to the unknown-files list; consequently a failing file
whose extension is in the configured known sets still appears in the
unknown-files report. -/
theorem C10_failed_known_file :
    (∀ (st : AnalyzerState) (f : AFile) (ext : String),
        (analyzer_process_file_body f).isOk = false →
        analyzer_process_file st f ext =
          { st with unknown_files := st.unknown_files ++ [f.path] }) ∧
    (∀ (exts : List String) (st : AnalyzerState) (files : List AFile) (f : AFile),
        f ∈ files → lowerStr (splitext_ext f.name) ∈ exts →
        (analyzer_process_file_body f).isOk = false →
        f.path ∈ (analyze_files exts st files).unknown_files) := by
  have part1 : ∀ (st : AnalyzerState) (f : AFile) (ext : String),
      (analyzer_process_file_body f).isOk = false →
      analyzer_process_file st f ext =
        { st with unknown_files := st.unknown_files ++ [f.path] } := by
    intro st f ext h
    cases hb : analyzer_process_file_body f with
    | ok r => rw [hb] at h; simp [Except.isOk, Except.toBool] at h
    | error e => simp [analyzer_process_file, hb]
  refine ⟨part1, ?_⟩
  intro exts st files f hmem hknown hfail
  revert hmem
  induction files generalizing st with
  | nil => intro hmem; cases hmem
  | cons g gs ih =>
    intro hmem
    have hunfold : analyze_files exts st (g :: gs) =
        analyze_files exts (analyzeStep exts st g) gs := rfl
    rw [hunfold]
    rcases List.mem_cons.mp hmem with heq | htail
    · subst heq
      obtain ⟨t, hmono⟩ := analyze_files_unknown_mono exts gs (analyzeStep exts st f)
      rw [hmono]
      have hstep : (analyzeStep exts st f).unknown_files =
          st.unknown_files ++ [f.path] := by
        unfold analyzeStep
        rw [if_pos hknown, part1 st f _ hfail]
      rw [hstep]
      simp
    · exact ih (analyzeStep exts st g) htail

/-- Concrete instance of C10: a `.jpg` file whose size query raises ends up
in the unknown-files list even though `.jpg` is a configured extension. -/
theorem C10_failed_known_file_witness :
    "s/x.jpg" ∈ (analyze_files [".jpg"] initState
        [⟨"s", "x.jpg", .error "PermissionError", .ok [], .ok ⟨2020, 1, 1, 0, 0, 0⟩⟩]).unknown_files :=
  C10_failed_known_file.2 [".jpg"] initState
    [⟨"s", "x.jpg", .error "PermissionError", .ok [], .ok ⟨2020, 1, 1, 0, 0, 0⟩⟩]
    ⟨"s", "x.jpg", .error "PermissionError", .ok [], .ok ⟨2020, 1, 1, 0, 0, 0⟩⟩
    (by simp) (by decide) rfl

end Takeout
